import Mathlib

/-!
Verification of the NATS messaging envelope protocol and the synchronous
HTTP-to-messaging bridge of this repository.

The embedding models the JSON layer at the level of parsed JSON values: a
wire message is an `Option Json`, where `some j` stands for a byte string
that `json.loads` parses to the value `j`, and `none` stands for bytes that
do not parse (so `json.loads` raises). Python `None` is modelled by
`Json.null`, Python dict field access `d.get(k, default)` by `lookupField`
plus `Option.getD`, and Python truthiness by `Json.truthy`. Numbers are
modelled as integers; no claim depends on numeric precision. Exceptions are
modelled with `Except String`: a `try ... except` block in the source
becomes a function from the `Except`-valued body to the caught result.
-/

/-- Parsed JSON values, the payload universe of the messaging layer. -/
inductive Json where
  | null : Json
  | bool : Bool → Json
  | num : Int → Json
  | str : String → Json
  | arr : List Json → Json
  | obj : List (String × Json) → Json

/-- Python truthiness of a JSON-decoded value: None, False, 0, empty string,
empty list and empty dict are falsy, everything else is truthy. -/
def Json.truthy : Json → Bool
  | .null => false
  | .bool b => b
  | .num n => n != 0
  | .str s => s != ""
  | .arr xs => !xs.isEmpty
  | .obj fs => !fs.isEmpty

/-- Field lookup in a parsed JSON object, modelling Python dict access.
Dicts produced by json.loads have unique keys, so first match suffices. -/
def lookupField : List (String × Json) → String → Option Json
  | [], _ => none
  | (k, v) :: rest, key => if k = key then some v else lookupField rest key

/-- Envelope construction, messaging.py lines 55-61 and 100-105 and 136-142:
the dict with keys sender, timestamp and data built before every publish,
reply and request. -/
def encodeEnvelope (sender : String) (timestamp : Int) (data : Json) : Json :=
  Json.obj [("sender", Json.str sender), ("timestamp", Json.num timestamp), ("data", data)]

/-- Envelope field extraction, messaging.py lines 88-93: envelope.get with
the defaults unknown, 0 and empty dict. Returns `none` when the parsed
value is not a JSON object, in which case the Python attribute access
raises AttributeError inside the surrounding try block. -/
def decodeEnvelope : Json → Option (Json × Json × Json)
  | .obj fs =>
      some ((lookupField fs "sender").getD (Json.str "unknown"),
            (lookupField fs "timestamp").getD (Json.num 0),
            (lookupField fs "data").getD (Json.obj []))
  | _ => none

/-- Business handler contract: receives (data, sender, timestamp) and either
returns a reply value (with `Json.null` standing for Python None) or raises. -/
def Handler : Type := Json → Json → Json → Except String Json

/-- Inbound raw message as delivered by the transport: the parse result of
msg.data (`none` when the bytes are not JSON) and msg.reply, the reply
destination subject, empty when the message carries none. -/
structure InMsg where
  data : Option Json
  reply : String

/-- Observable outcome of one run of the dispatch wrapper: whether the
business handler was invoked, the list of (subject, envelope) messages
published, and the exception, if any, escaping the wrapper. -/
structure DispatchTrace where
  handlerCalled : Bool
  published : List (String × Json)
  escaped : Option String

/-- Body of message_handler, messaging.py lines 85-108, before the enclosing
except clause: decode the envelope, call the handler, and when the message
has a reply destination and the handler returned a truthy value, publish
the reply envelope. Each raise site records the escaping exception. -/
def message_handler_body (serviceName : String) (now : Int) (handler : Handler)
    (msg : InMsg) : DispatchTrace :=
  match msg.data with
  | none => ⟨false, [], some "JSONDecodeError"⟩
  | some envelope =>
    match decodeEnvelope envelope with
    | none => ⟨false, [], some "AttributeError"⟩
    | some (sender, timestamp, data) =>
      match handler data sender timestamp with
      | .error e => ⟨true, [], some e⟩
      | .ok response =>
        if msg.reply ≠ "" ∧ response.truthy = true then
          ⟨true, [(msg.reply, encodeEnvelope serviceName now response)], none⟩
        else
          ⟨true, [], none⟩

/-- The dispatch wrapper installed by subscribe_to_subject, messaging.py
lines 85-111: the whole body runs under try, and the except clause logs the
exception and swallows it, so nothing escapes. -/
def message_handler (serviceName : String) (now : Int) (handler : Handler)
    (msg : InMsg) : DispatchTrace :=
  { message_handler_body serviceName now handler msg with escaped := none }

/-- The delivery loop of a subscription: the transport invokes the callback
once per inbound message; an exception escaping the callback terminates the
loop, so later messages are dropped. -/
def deliveryLoop (serviceName : String) (now : Int) (handler : Handler) :
    List InMsg → List DispatchTrace
  | [] => []
  | m :: ms =>
    let t := message_handler serviceName now handler m
    if t.escaped.isSome then [t]
    else t :: deliveryLoop serviceName now handler ms

/-- Publish path, messaging.py lines 41-71: builds the envelope from the
service identity, the current time and the message, and hands
(subject, envelope, optional reply destination) to the transport. -/
def publish_message (serviceName : String) (now : Int) (subject : String)
    (message : Json) (reply_to : Option String) : String × Json × Option String :=
  (subject, encodeEnvelope serviceName now message, reply_to)

/-- What the transport hands back to a pending request: a reply message
(whose bytes may or may not parse), a timeout, or a transport error raised
by the client library. -/
inductive ReplyEvent where
  | reply : Option Json → ReplyEvent
  | timeout : ReplyEvent
  | transportError : String → ReplyEvent

/-- Body of request_response, messaging.py lines 120-152, before the
enclosing except clause: build and send the request envelope, wait for the
outcome, parse the reply and extract its data field with default empty
dict. `respond` models the transport: the event produced for the request
wire that was sent. Each raise site records the escaping exception. -/
def request_response_body (serviceName : String) (now : Int) (subject : String)
    (request : Json) (respond : String → Json → ReplyEvent) : Except String Json :=
  let envelope := encodeEnvelope serviceName now request
  match respond subject envelope with
  | .transportError e => .error e
  | .timeout => .error "TimeoutError"
  | .reply none => .error "JSONDecodeError"
  | .reply (some respEnv) =>
    match respEnv with
    | .obj fs => .ok ((lookupField fs "data").getD (Json.obj []))
    | _ => .error "AttributeError"

/-- request_response, messaging.py lines 120-156: the body runs under try,
and the except clause logs and returns None, so the caller sees the decoded
reply data or `none`, never an exception. -/
def request_response (serviceName : String) (now : Int) (subject : String)
    (request : Json) (respond : String → Json → ReplyEvent) : Option Json :=
  match request_response_body serviceName now subject request respond with
  | .ok d => some d
  | .error _ => none

/-- End-to-end request exchange between a requester and a subscribed
responder: the requester sends its request envelope with an inbox reply
destination, the responder runs the dispatch wrapper on it, and the
requester receives the reply published to its inbox, or times out when
none was published there. -/
def request_round_trip (reqService respService subject : String) (t1 t2 : Int)
    (handler : Handler) (inbox : String) (request : Json) : Option Json :=
  let trace := message_handler respService t2 handler
    ⟨some (encodeEnvelope reqService t1 request), inbox⟩
  request_response reqService t1 subject request
    (fun _ _ =>
      match lookupField trace.published inbox with
      | some env => ReplyEvent.reply (some env)
      | none => ReplyEvent.timeout)

/-- Convenience wrapper get_user_info, messaging.py lines 180-182: a
request_response on subject user.get with the user id as payload. -/
def get_user_info (serviceName : String) (now : Int) (userId : String)
    (respond : String → Json → ReplyEvent) : Option Json :=
  request_response serviceName now "user.get" (Json.obj [("user_id", Json.str userId)]) respond

/-- The value the bridge thread puts into the result queue: the Python
return value of get_user_info, with None modelled by `Json.null`. -/
def queueItemOfResult (r : Option Json) : Json :=
  r.getD Json.null

/-- HTTP response produced by the shared APIResponse helpers: a JSON body
and a status code. -/
structure HttpResponse where
  body : Json
  status : Nat

/-- APIResponse.success, shared/utils/response.py: body with success true,
the message and the data, paired with the status code. -/
def APIResponse.success (data : Json) (message : String) (statusCode : Nat) : HttpResponse :=
  ⟨Json.obj [("success", Json.bool true), ("message", Json.str message), ("data", data)],
   statusCode⟩

/-- APIResponse.error, shared/utils/response.py: body with success false and
the message, paired with the status code. The optional errors dict is never
passed by the controllers modelled here, so it is omitted. -/
def APIResponse.error (message : String) (statusCode : Nat) : HttpResponse :=
  ⟨Json.obj [("success", Json.bool false), ("message", Json.str message)], statusCode⟩

/-- Python str() of a decoded value, used in f-string interpolation.
The controllers interpolate only strings on their reachable paths, where
str is the identity; renderings of the other shapes are abridged and no
claim depends on them. -/
def pyStr : Json → String
  | .null => "None"
  | .bool true => "True"
  | .bool false => "False"
  | .num n => toString n
  | .str s => s
  | .arr _ => "list"
  | .obj _ => "dict"

/-- The Python membership test of the string error in a decoded value:
key membership for a dict, substring for a string, element equality for a
list; any other operand raises TypeError. -/
def containsError : Json → Except String Bool
  | .obj fs => .ok (fs.any (fun p => p.1 == "error"))
  | .str s => .ok (decide (1 < (s.splitOn "error").length))
  | .arr xs => .ok (xs.any (fun x => match x with | .str s => s == "error" | _ => false))
  | _ => .error "TypeError"

/-- Body of send_notification_endpoint, controllers.py lines 24-58, before
the enclosing except clause: validate user_id and message, then either
schedule the publish on a background thread and report success, or report
the ImportError fallback success when the messaging module is unavailable.
Attribute access on a non-dict body raises. -/
def send_notification_body (natsAvailable : Bool) (reqBody : Json) : Except String HttpResponse :=
  match reqBody with
  | .obj fs =>
    let user_id := (lookupField fs "user_id").getD Json.null
    let message := (lookupField fs "message").getD Json.null
    let ntype := (lookupField fs "type").getD (Json.str "info")
    if user_id.truthy = false ∨ message.truthy = false then
      .ok (APIResponse.error "user_id and message are required" 400)
    else if natsAvailable then
      .ok (APIResponse.success
        (Json.obj [("message", Json.str "Notification sent via NATS"),
                   ("user_id", user_id), ("type", ntype)]) "Success" 200)
    else
      .ok (APIResponse.success
        (Json.obj [("message", Json.str "Notification would be sent (NATS not available)"),
                   ("user_id", user_id), ("type", ntype)]) "Success" 200)
  | _ => .error "AttributeError"

/-- send_notification_endpoint, controllers.py lines 24-66: the body runs
under try, and the outer except clause turns any exception into a 500
error response. -/
def send_notification_endpoint (natsAvailable : Bool) (reqBody : Json) : HttpResponse :=
  match send_notification_body natsAvailable reqBody with
  | .ok r => r
  | .error e => APIResponse.error ("Failed to send notification: " ++ e) 500

/-- Body of broadcast_message, controllers.py lines 68-99, before the
enclosing except clause: validate message, then, when the messaging module
imports, define send_async and evaluate threading.Thread. The name
threading is imported only inside send_notification_endpoint and not at
module level nor in this function, so that evaluation raises NameError,
which is not an ImportError and escapes the inner try. -/
def broadcast_body (natsAvailable : Bool) (reqBody : Json) : Except String HttpResponse :=
  match reqBody with
  | .obj fs =>
    let message := (lookupField fs "message").getD Json.null
    if message.truthy = false then
      .ok (APIResponse.error "message is required" 400)
    else if natsAvailable then
      .error "NameError: name threading is not defined"
    else
      .ok (APIResponse.success
        (Json.obj [("message", Json.str "Broadcast would be sent (NATS not available)"),
                   ("content", message)]) "Success" 200)
  | _ => .error "AttributeError"

/-- broadcast_message, controllers.py lines 68-104: the body runs under
try, and the outer except clause turns any exception into a 500 error
response. -/
def broadcast_message (natsAvailable : Bool) (reqBody : Json) : HttpResponse :=
  match broadcast_body natsAvailable reqBody with
  | .ok r => r
  | .error e => APIResponse.error ("Failed to broadcast: " ++ e) 500

/-- Bound, in seconds, of the wait-for-result mode of the sync bridge:
thread.join with timeout 6 in controllers.py line 131. -/
def joinTimeoutSeconds : Nat := 6

/-- The condition result and error not in result of controllers.py line
135: short-circuits to false on a falsy result, otherwise negates the
membership test, which can itself raise. -/
def resultCond (r : Json) : Except String Bool :=
  if r.truthy then (containsError r).map (fun b => !b) else .ok false

/-- request_user_info, controllers.py lines 106-145: when the messaging
module is unavailable the ImportError fallback reports success; otherwise
the bridge thread is joined for at most joinTimeoutSeconds and the
thread-safe queue is inspected. An empty queue yields the 504 timeout
response. A queue item passing the condition yields the success response;
otherwise the error branch evaluates result.get, which raises
AttributeError on a non-dict result such as None, and only ImportError is
caught, so that exception escapes the endpoint. -/
def request_user_info (natsAvailable : Bool) (userId : String) (slot : Option Json) :
    Except String HttpResponse :=
  if natsAvailable = false then
    .ok (APIResponse.success
      (Json.obj [("message", Json.str "Would request user info via NATS (not available)"),
                 ("user_id", Json.str userId)]) "Success" 200)
  else
    match slot with
    | none => .ok (APIResponse.error "Request timeout" 504)
    | some result =>
      match resultCond result with
      | .error e => .error e
      | .ok true =>
        .ok (APIResponse.success
          (Json.obj [("message", Json.str "User info retrieved via NATS"),
                     ("user_info", result)]) "Success" 200)
      | .ok false =>
        match result with
        | .obj fs =>
          .ok (APIResponse.error
            ("Failed to get user info: " ++ pyStr ((lookupField fs "error").getD (Json.str "timeout"))) 500)
        | _ => .error "AttributeError"

/-- Helper: decoding the envelope the codec builds recovers the triple. -/
theorem decodeEnvelope_encodeEnvelope (s : String) (t : Int) (d : Json) :
    decodeEnvelope (encodeEnvelope s t d) = some (Json.str s, Json.num t, d) := rfl

/-- Helper: the dispatch wrapper never lets an exception escape, because its
entire body runs under the try with a catch-all except clause. -/
theorem message_handler_escaped_none (serviceName : String) (now : Int)
    (handler : Handler) (msg : InMsg) :
    (message_handler serviceName now handler msg).escaped = none := rfl

/-- Claim C2: for every sender, timestamp and JSON-serializable data, the
decode of the encode of the envelope yields back exactly the triple, the
codec round-trip law. -/
theorem c2_codec_round_trip (s : String) (t : Int) (d : Json) :
    decodeEnvelope (encodeEnvelope s t d) = some (Json.str s, Json.num t, d) := rfl

/-- Claim C3: decoding any byte sequence that parses as a JSON object
succeeds, and each of the keys sender, timestamp and data that is missing
is replaced by its default, the string unknown, zero and the empty object
respectively. -/
theorem c3_decode_defaults (fs : List (String × Json)) :
    ∃ s t d, decodeEnvelope (Json.obj fs) = some (s, t, d) ∧
      (lookupField fs "sender" = none → s = Json.str "unknown") ∧
      (lookupField fs "timestamp" = none → t = Json.num 0) ∧
      (lookupField fs "data" = none → d = Json.obj []) := by
  refine ⟨_, _, _, rfl, ?_, ?_, ?_⟩ <;> intro h <;> simp [h]

/-- Witness for claim C3 at the empty object, where all three keys are
missing and all three defaults appear. -/
theorem c3_decode_defaults_witness :
    decodeEnvelope (Json.obj []) = some (Json.str "unknown", Json.num 0, Json.obj []) := by
  obtain ⟨s, t, d, h1, h2, h3, h4⟩ := c3_decode_defaults []
  rw [h2 rfl, h3 rfl, h4 rfl] at h1
  exact h1

/-- Claim C4: an inbound message whose bytes do not parse as JSON is
dropped by the dispatch wrapper without invoking the handler and without
publishing anything, no exception escapes the wrapper, and the delivery
loop goes on to process the remaining messages. -/
theorem c4_unparseable_dropped (serviceName : String) (now : Int) (handler : Handler)
    (reply : String) (rest : List InMsg) :
    message_handler serviceName now handler ⟨none, reply⟩ =
      ⟨false, [], none⟩ ∧
    deliveryLoop serviceName now handler (⟨none, reply⟩ :: rest) =
      ⟨false, [], none⟩ :: deliveryLoop serviceName now handler rest := by
  constructor
  · rfl
  · simp [deliveryLoop, message_handler, message_handler_body]

/-- Claim C5: when the business handler raises on a message, the dispatch
wrapper has invoked the handler but lets no exception escape, and the
delivery loop still processes a subsequent unrelated message on the same
subject exactly as it would alone. -/
theorem c5_handler_error_contained (serviceName : String) (now : Int) (handler : Handler)
    (m1 m2 : InMsg) (env s t d : Json) (e : String)
    (h1 : m1.data = some env) (h2 : decodeEnvelope env = some (s, t, d))
    (h3 : handler d s t = .error e) :
    (message_handler serviceName now handler m1).handlerCalled = true ∧
    (message_handler serviceName now handler m1).escaped = none ∧
    deliveryLoop serviceName now handler [m1, m2] =
      [message_handler serviceName now handler m1,
       message_handler serviceName now handler m2] := by
  refine ⟨?_, rfl, ?_⟩
  · simp [message_handler, message_handler_body, h1, h2, h3]
  · simp [deliveryLoop, message_handler_escaped_none]

/-- Witness for claim C5: a handler that always raises, invoked on a
well-formed empty envelope, followed by a second copy of the message. -/
theorem c5_handler_error_contained_witness :
    (message_handler "svc" 0 (fun _ _ _ => Except.error "boom")
        ⟨some (Json.obj []), ""⟩).handlerCalled = true ∧
    (message_handler "svc" 0 (fun _ _ _ => Except.error "boom")
        ⟨some (Json.obj []), ""⟩).escaped = none ∧
    deliveryLoop "svc" 0 (fun _ _ _ => Except.error "boom")
        [⟨some (Json.obj []), ""⟩, ⟨some (Json.obj []), "r"⟩] =
      [message_handler "svc" 0 (fun _ _ _ => Except.error "boom") ⟨some (Json.obj []), ""⟩,
       message_handler "svc" 0 (fun _ _ _ => Except.error "boom") ⟨some (Json.obj []), "r"⟩] :=
  c5_handler_error_contained "svc" 0 (fun _ _ _ => Except.error "boom")
    ⟨some (Json.obj []), ""⟩ ⟨some (Json.obj []), "r"⟩ (Json.obj [])
    (Json.str "unknown") (Json.num 0) (Json.obj []) "boom" rfl rfl rfl

/-- Claim C1: a subscribed handler that returns a truthy structured value V
on a request causes the dispatch wrapper to publish a reply envelope with
data V to the inbound reply destination, and the requester decodes that
reply and gets back exactly V. -/
theorem c1_request_reply_round_trip (reqService respService subject : String)
    (t1 t2 : Int) (handler : Handler) (inbox : String) (request V : Json)
    (hh : handler request (Json.str reqService) (Json.num t1) = .ok V)
    (hV : V.truthy = true) (hinbox : inbox ≠ "") :
    (message_handler respService t2 handler
        ⟨some (encodeEnvelope reqService t1 request), inbox⟩).published =
      [(inbox, encodeEnvelope respService t2 V)] ∧
    request_round_trip reqService respService subject t1 t2 handler inbox request = some V := by
  have hpub : (message_handler respService t2 handler
      ⟨some (encodeEnvelope reqService t1 request), inbox⟩).published =
      [(inbox, encodeEnvelope respService t2 V)] := by
    simp [message_handler, message_handler_body, decodeEnvelope_encodeEnvelope, hh, hV, hinbox]
  refine ⟨hpub, ?_⟩
  simp only [request_round_trip]
  simp only [hpub]
  simp only [lookupField, if_pos rfl]
  rfl

/-- Witness for claim C1: a user.get handler returning a concrete user
record, reached through a concrete inbox. -/
theorem c1_request_reply_round_trip_witness :
    (message_handler "user-service" 1
        (fun _ _ _ => Except.ok
          (Json.obj [("user_id", Json.str "42"), ("email", Json.str "user42@example.com")]))
        ⟨some (encodeEnvelope "client" 0 (Json.obj [("user_id", Json.str "42")])),
         "inbox.reply.1"⟩).published =
      [("inbox.reply.1",
        encodeEnvelope "user-service" 1
          (Json.obj [("user_id", Json.str "42"), ("email", Json.str "user42@example.com")]))] ∧
    request_round_trip "client" "user-service" "user.get" 0 1
        (fun _ _ _ => Except.ok
          (Json.obj [("user_id", Json.str "42"), ("email", Json.str "user42@example.com")]))
        "inbox.reply.1" (Json.obj [("user_id", Json.str "42")]) =
      some (Json.obj [("user_id", Json.str "42"), ("email", Json.str "user42@example.com")]) :=
  c1_request_reply_round_trip "client" "user-service" "user.get" 0 1
    (fun _ _ _ => Except.ok
      (Json.obj [("user_id", Json.str "42"), ("email", Json.str "user42@example.com")]))
    "inbox.reply.1" (Json.obj [("user_id", Json.str "42")])
    (Json.obj [("user_id", Json.str "42"), ("email", Json.str "user42@example.com")])
    rfl rfl (by decide)

/-- Counterexample to claim C6: a handler returning the empty object, an
empty-but-present structured value, on a message that does carry a reply
destination, causes no reply to be published at all, because the source
tests Python truthiness of the returned value and the empty dict is falsy. -/
theorem c6_counterexample_empty_reply_suppressed :
    (message_handler "notification-service" 7 (fun _ _ _ => Except.ok (Json.obj []))
        ⟨some (encodeEnvelope "client" 3 (Json.obj [("user_id", Json.str "42")])),
         "reply.inbox"⟩).published = [] ∧
    ("reply.inbox" : String) ≠ "" := by
  exact ⟨rfl, by decide⟩

/-- Claim C6 as amended: for a message whose envelope decodes and whose
handler returns a value, a reply is published exactly when the message
carries a reply destination and the returned value is truthy; a handler
returning an empty-but-present value such as the empty dict publishes no
reply, the same as returning nothing. -/
theorem c6_reply_iff_truthy (serviceName : String) (now : Int) (handler : Handler)
    (msg : InMsg) (env s t d V : Json)
    (h1 : msg.data = some env) (h2 : decodeEnvelope env = some (s, t, d))
    (h3 : handler d s t = .ok V) :
    (message_handler serviceName now handler msg).published =
      if msg.reply ≠ "" ∧ V.truthy = true then
        [(msg.reply, encodeEnvelope serviceName now V)]
      else [] := by
  by_cases hc : msg.reply ≠ "" ∧ V.truthy = true
  · simp [message_handler, message_handler_body, h1, h2, h3, hc]
  · simp [message_handler, message_handler_body, h1, h2, h3, hc]

/-- Witness for the amended claim C6: a handler returning a nonempty object
through a nonempty inbox, where the condition holds and the reply appears. -/
theorem c6_reply_iff_truthy_witness :
    (message_handler "svc" 5 (fun _ _ _ => Except.ok (Json.obj [("x", Json.num 1)]))
        ⟨some (encodeEnvelope "c" 2 Json.null), "inb"⟩).published =
      (if ("inb" : String) ≠ "" ∧ (Json.obj [("x", Json.num 1)]).truthy = true then
        [("inb", encodeEnvelope "svc" 5 (Json.obj [("x", Json.num 1)]))]
      else []) :=
  c6_reply_iff_truthy "svc" 5 (fun _ _ _ => Except.ok (Json.obj [("x", Json.num 1)]))
    ⟨some (encodeEnvelope "c" 2 Json.null), "inb"⟩
    (encodeEnvelope "c" 2 Json.null) (Json.str "c") (Json.num 2) Json.null
    (Json.obj [("x", Json.num 1)]) rfl rfl rfl

/-- Claim C7: request_response never raises to its caller; it returns none
on timeout, on any transport error and on an unparseable reply, and it
returns the decoded data field of a well-formed reply envelope. -/
theorem c7_request_returns_none_or_data (serviceName : String) (now : Int)
    (subject : String) (request : Json) (ev : ReplyEvent) :
    (ev = ReplyEvent.timeout →
      request_response serviceName now subject request (fun _ _ => ev) = none) ∧
    (∀ e, ev = ReplyEvent.transportError e →
      request_response serviceName now subject request (fun _ _ => ev) = none) ∧
    (ev = ReplyEvent.reply none →
      request_response serviceName now subject request (fun _ _ => ev) = none) ∧
    (∀ fs, ev = ReplyEvent.reply (some (Json.obj fs)) →
      request_response serviceName now subject request (fun _ _ => ev) =
        some ((lookupField fs "data").getD (Json.obj []))) := by
  refine ⟨?_, ?_, ?_, ?_⟩
  · rintro rfl; rfl
  · rintro e rfl; rfl
  · rintro rfl; rfl
  · rintro fs rfl; rfl

/-- Witness for claim C7: a concrete reply envelope whose data field comes
back, at the successful branch of the statement. -/
theorem c7_request_returns_none_or_data_witness :
    request_response "svc" 0 "user.get" (Json.obj [])
        (fun _ _ => ReplyEvent.reply (some (Json.obj [("data", Json.str "x")]))) =
      some (Json.str "x") :=
  (c7_request_returns_none_or_data "svc" 0 "user.get" (Json.obj [])
      (ReplyEvent.reply (some (Json.obj [("data", Json.str "x")])))).2.2.2
    [("data", Json.str "x")] rfl

/-- Claim C8, evaluated at the failing input: with the messaging module
importable, a broadcast request with a message present returns the 500
error response caused by the NameError on the unimported name threading,
not a success response, while the send-notification endpoint does return
success; the fire-and-forget success claim fails for the broadcast
endpoint. -/
theorem c8_broadcast_reports_error_not_success :
    broadcast_message true (Json.obj [("message", Json.str "hello")]) =
      APIResponse.error "Failed to broadcast: NameError: name threading is not defined" 500 ∧
    (broadcast_message true (Json.obj [("message", Json.str "hello")])).status = 500 ∧
    send_notification_endpoint true
        (Json.obj [("user_id", Json.str "u1"), ("message", Json.str "hi")]) =
      APIResponse.success
        (Json.obj [("message", Json.str "Notification sent via NATS"),
                   ("user_id", Json.str "u1"), ("type", Json.str "info")]) "Success" 200 :=
  ⟨rfl, rfl, rfl⟩

/-- Claim C9: the sync bridge waits at most six seconds, and when the
background operation has not handed a result into the queue by then, the
endpoint returns the 504 request-timeout error response, whatever the
inner operation would eventually produce. -/
theorem c9_bridge_timeout_504 (userId : String) :
    joinTimeoutSeconds = 6 ∧
    request_user_info true userId none =
      Except.ok (APIResponse.error "Request timeout" 504) :=
  ⟨rfl, rfl⟩

/-- Claim C10: when the bridged get_user_info operation completes with
None, because the broker request timed out, the endpoint does not return
an HTTP error response: the error branch evaluates an attribute access on
None, and the resulting AttributeError is not an ImportError and so
escapes the endpoint unhandled. -/
theorem c10_none_result_attribute_error (userId : String) :
    get_user_info "notification-service" 0 userId (fun _ _ => ReplyEvent.timeout) = none ∧
    request_user_info true userId
        (some (queueItemOfResult
          (get_user_info "notification-service" 0 userId (fun _ _ => ReplyEvent.timeout)))) =
      Except.error "AttributeError" ∧
    ∀ resp : HttpResponse, request_user_info true userId (some Json.null) ≠ Except.ok resp := by
  refine ⟨rfl, rfl, ?_⟩
  intro resp h
  exact Except.noConfusion
    (show Except.error (α := HttpResponse) "AttributeError" = Except.ok resp from h)

/-- Witness for claim C10 at a concrete user id. -/
theorem c10_none_result_attribute_error_witness :
    get_user_info "notification-service" 0 "42" (fun _ _ => ReplyEvent.timeout) = none ∧
    request_user_info true "42"
        (some (queueItemOfResult
          (get_user_info "notification-service" 0 "42" (fun _ _ => ReplyEvent.timeout)))) =
      Except.error "AttributeError" ∧
    ∀ resp : HttpResponse, request_user_info true "42" (some Json.null) ≠ Except.ok resp :=
  c10_none_result_attribute_error "42"
